import Mathlib

/-!
Verification of the MagDriveTaxi pricing core
(`Microservices/pricing_core_cpp`).

Embedded here are the httplib-based service in `main.cpp` (configuration,
request parsing, fare computation, the `POST /price` handler) and the
`magadrive::PricingEngine` variant in `pricing_engine.cpp` (distance,
class and time-of-day multipliers).  C++ `double` arithmetic is modelled
by exact rational arithmetic over `ℚ`, and `std::round` by rounding half
away from zero.  The randomized demand coefficient and the RNG draws
behind UUID generation are explicit parameters, mirroring how the code uses
a generator object.
-/

/-- C++ `std::round`: nearest integer, halves resolved away from zero. -/
def roundHalfAwayFromZero (q : ℚ) : ℤ :=
  if 0 ≤ q then ⌊q + 1/2⌋ else ⌈q - 1/2⌉

/-- `Config` from `main.cpp`: pricing parameters read from the environment. -/
structure Config where
  base_price : ℚ
  price_per_km : ℚ
  price_per_minute : ℚ
  demand_coefficient_min : ℚ
  demand_coefficient_max : ℚ
deriving DecidableEq

/-- The configuration produced by `Config::Config()` when no environment
variables are set (`BASE_PRICE=100`, `PRICE_PER_KM=15`, `PRICE_PER_MINUTE=3`,
`DEMAND_COEFF_MIN=1.0`, `DEMAND_COEFF_MAX=1.4`). -/
def defaultConfig : Config :=
  { base_price := 100
    price_per_km := 15
    price_per_minute := 3
    demand_coefficient_min := 1
    demand_coefficient_max := 7/5 }

/-- `PriceRequest` from `main.cpp`. -/
structure PriceRequest where
  distanceM : ℚ
  etaSec : ℚ
  vehicleClass : String
deriving DecidableEq

/-- The fields of a `POST /price` JSON body that the service reads:
`distanceM` and `etaSec` (numbers, `none` when absent) and `class`
(string, `none` when absent). -/
structure PriceJson where
  distanceM : Option ℚ
  etaSec : Option ℚ
  classField : Option String
deriving DecidableEq

/-- `PriceRequest::fromJson` from `main.cpp`: `j.at("distanceM")` and
`j.at("etaSec")` throw when the field is missing, which the function turns
into `false` (here `none`); `j.value("class", "economy")` substitutes the
default class when the `class` field is absent. -/
def PriceRequest.fromJson (j : PriceJson) : Option PriceRequest :=
  match j.distanceM, j.etaSec with
  | some d, some e =>
    some { distanceM := d, etaSec := e, vehicleClass := j.classField.getD "economy" }
  | _, _ => none

/-- `PricingEngine::getClassMultiplier` from `main.cpp`: a hard-coded
string table with default `1.0`. -/
def getClassMultiplier (vehicleClass : String) : ℚ :=
  if vehicleClass = "economy" then 1
  else if vehicleClass = "comfort" then 13/10
  else if vehicleClass = "business" then 9/5
  else if vehicleClass = "premium" then 5/2
  else 1

/-- The error codes occurring in `main.cpp` responses. -/
inductive ErrorCode where
  | JSON_PARSE_ERROR
  | INVALID_REQUEST
  | INVALID_PARAMETERS
  | PRICE_CALCULATION_FAILED
  | INTERNAL_ERROR
deriving DecidableEq

/-- The `error` object of the response envelope. -/
structure ErrorObj where
  code : ErrorCode
  message : String
deriving DecidableEq

/-- The `breakdown` object built by `PricingEngine::calculatePrice`. -/
structure PriceBreakdown where
  base : ℚ
  distance : ℤ
  time : ℤ
  classMultiplier : ℚ
  demandCoeff : ℚ
deriving DecidableEq

/-- The `data` payload of a successful price response. -/
structure PriceData where
  price : ℤ
  currency : String
  breakdown : PriceBreakdown
deriving DecidableEq

/-- The shared response envelope `{data, error, traceId}`. -/
structure Envelope where
  data : Option PriceData
  error : Option ErrorObj
  traceId : String
deriving DecidableEq

/-- `PricingEngine::calculatePrice` from `main.cpp`.  The demand coefficient
drawn from `uniform_real_distribution` is the explicit parameter
`demandCoeff`; `calcThrows` (with message `exMsg`) models the `catch`
branch, taken when an exception is thrown inside the `try` block. -/
def PricingEngine.calculatePrice (config : Config) (request : PriceRequest)
    (demandCoeff : ℚ) (calcThrows : Bool) (exMsg : String) (traceId : String) :
    Envelope :=
  if calcThrows then
    { data := none
      error := some { code := .PRICE_CALCULATION_FAILED, message := exMsg }
      traceId := traceId }
  else
    let distanceKm := request.distanceM / 1000
    let etaMinutes := request.etaSec / 60
    let price := config.base_price + distanceKm * config.price_per_km
      + etaMinutes * config.price_per_minute
    let classMultiplier := getClassMultiplier request.vehicleClass
    let priceWithClass := price * classMultiplier
    let priceWithDemand := priceWithClass * demandCoeff
    { data := some
        { price := roundHalfAwayFromZero priceWithDemand
          currency := "RUB"
          breakdown :=
            { base := config.base_price
              distance := roundHalfAwayFromZero (distanceKm * config.price_per_km)
              time := roundHalfAwayFromZero (etaMinutes * config.price_per_minute)
              classMultiplier := classMultiplier
              demandCoeff := (roundHalfAwayFromZero (demandCoeff * 100) : ℚ) / 100 } }
      error := none
      traceId := traceId }

/-- The hexadecimal alphabet of `generateUUID` (`"0123456789abcdef"`). -/
def hexChars : List Char := "0123456789abcdef".data

/-- The template string mutated by `generateUUID`. -/
def uuidTemplate : String := "xxxxxxxx-xxxx-4xxx-yxxx-xxxxxxxxxxxx"

/-- The character-replacement loop of `generateUUID`: an `x` becomes a hex
digit chosen by a fresh draw from `[0,15]`, a `y` becomes `chars[(d & 0x3) |
0x8]` (one of `8,9,a,b`), every other character is kept.  The RNG is
modelled by the draw stream `draw`, one entry per position. -/
def replaceUuidChars (draw : ℕ → ℕ) : ℕ → List Char → List Char
  | _, [] => []
  | i, c :: cs =>
    (if c = 'x' then hexChars.getD (draw i % 16) '0'
     else if c = 'y' then hexChars.getD (draw i % 16 % 4 + 8) '0'
     else c) :: replaceUuidChars draw (i + 1) cs

/-- `generateUUID` from `main.cpp`. -/
def generateUUID (draw : ℕ → ℕ) : String :=
  { data := replaceUuidChars draw 0 uuidTemplate.data }

/-- Trace-id resolution at the top of the `POST /price` handler: the
`X-Request-Id` header value (the empty string when the header is absent,
as returned by `get_header_value`), or a freshly generated UUID. -/
def resolveTraceId (headerValue : String) (draw : ℕ → ℕ) : String :=
  if headerValue = "" then generateUUID draw else headerValue

/-- Outcome of `json::parse(req.body)` inside the `try` block of the handler:
a parsed body, a `json::parse_error`, or some other exception (reaching
the generic `catch (exception)` branch) with its message. -/
inductive ParseOutcome where
  | ok (j : PriceJson)
  | parseFailure
  | otherFailure (msg : String)

/-- The HTTP response produced by the handler over the vendored httplib stub: `status`
starts at `200` and only changed where the handler assigns it;
`xRequestId` records the `X-Request-Id` response header, `some` exactly
when `res.set_header("X-Request-Id", ...)` ran. -/
structure HttpResponse where
  status : ℕ
  xRequestId : Option String
  body : Envelope
deriving DecidableEq

/-- The `POST /price` handler from `main.cpp`.  `headerValue` is
`req.get_header_value("X-Request-Id")`, `draw` feeds `generateUUID`,
`parse` is the JSON parse outcome of the request body, and `demandCoeff`,
`calcThrows`, `exMsg` parameterize the engine call as in
`PricingEngine.calculatePrice`. -/
def priceHandler (config : Config) (headerValue : String) (draw : ℕ → ℕ)
    (parse : ParseOutcome) (demandCoeff : ℚ) (calcThrows : Bool) (exMsg : String) :
    HttpResponse :=
  let traceId := resolveTraceId headerValue draw
  match parse with
  | .parseFailure =>
    { status := 400
      xRequestId := none
      body := { data := none
                error := some { code := .JSON_PARSE_ERROR, message := "Invalid JSON format" }
                traceId := traceId } }
  | .otherFailure msg =>
    { status := 500
      xRequestId := none
      body := { data := none
                error := some { code := .INTERNAL_ERROR, message := msg }
                traceId := traceId } }
  | .ok j =>
    match PriceRequest.fromJson j with
    | none =>
      { status := 400
        xRequestId := none
        body := { data := none
                  error := some { code := .INVALID_REQUEST, message := "Invalid request format" }
                  traceId := traceId } }
    | some req =>
      if req.distanceM ≤ 0 ∨ req.etaSec ≤ 0 then
        { status := 400
          xRequestId := none
          body := { data := none
                    error := some { code := .INVALID_PARAMETERS,
                                    message := "Distance and ETA must be positive" }
                    traceId := traceId } }
      else
        { status := 200
          xRequestId := some traceId
          body := PricingEngine.calculatePrice config req demandCoeff calcThrows exMsg traceId }

namespace magadrive

/-- `magadrive::VehicleClass` from `pricing_engine.h`. -/
inductive VehicleClass where
  | COMFORT
  | BUSINESS
  | XL
deriving DecidableEq

/-- The multiplier state of `magadrive::PricingEngine`; the class table is
a map (`none` for keys that were never inserted). -/
structure PricingEngine where
  class_multipliers : VehicleClass → Option ℚ
  base_distance_multiplier : ℚ
  long_distance_threshold_m : ℚ
  long_distance_multiplier : ℚ
  peak_hour_multiplier : ℚ
  night_hour_multiplier : ℚ

/-- The engine state established by `magadrive::PricingEngine::PricingEngine()`
in `pricing_engine.cpp`. -/
def engineInit : PricingEngine :=
  { class_multipliers := fun vc =>
      match vc with
      | .COMFORT => some 1
      | .BUSINESS => some (9/5)
      | .XL => some (5/2)
    base_distance_multiplier := 1
    long_distance_threshold_m := 10000
    long_distance_multiplier := 4/5
    peak_hour_multiplier := 13/10
    night_hour_multiplier := 6/5 }

/-- `magadrive::PricingEngine::getDistanceMultiplier`. -/
def PricingEngine.getDistanceMultiplier (e : PricingEngine) (distance_m : ℚ) : ℚ :=
  if distance_m ≤ e.long_distance_threshold_m then e.base_distance_multiplier
  else e.long_distance_multiplier

/-- `magadrive::PricingEngine::getClassMultiplier`: map lookup with a
`1.0` fallback. -/
def PricingEngine.getClassMultiplier (e : PricingEngine) (vc : VehicleClass) : ℚ :=
  (e.class_multipliers vc).getD 1

/-- `magadrive::PricingEngine::getTimeOfDayMultiplier`, with the local
hour-of-day (`tm_hour`, in `0..23`) made an explicit argument. -/
def PricingEngine.getTimeOfDayMultiplier (e : PricingEngine) (hour : ℕ) : ℚ :=
  if (7 ≤ hour ∧ hour ≤ 9) ∨ (17 ≤ hour ∧ hour ≤ 19) then e.peak_hour_multiplier
  else if 22 ≤ hour ∨ hour ≤ 6 then e.night_hour_multiplier
  else 1

end magadrive

/-- Spec-side (from the C1 sentence): `round(base_amount × class_mult ×
distance_mult × time_mult × demand_mult)` with `base_amount =
config.base_price + distance_m/1000 * config.price_per_km + eta_sec/60 *
config.price_per_minute`. -/
def specFormulaPrice (config : Config) (request : PriceRequest)
    (class_mult distance_mult time_mult demand_mult : ℚ) : ℤ :=
  roundHalfAwayFromZero
    ((config.base_price + request.distanceM / 1000 * config.price_per_km
        + request.etaSec / 60 * config.price_per_minute)
      * class_mult * distance_mult * time_mult * demand_mult)

/-- The real-valued fare computation of `PricingEngine::calculatePrice`
before the final `round`: additive base, then the class and demand
multipliers. -/
def realValuedFare (config : Config) (request : PriceRequest) (demandCoeff : ℚ) : ℚ :=
  (config.base_price + request.distanceM / 1000 * config.price_per_km
      + request.etaSec / 60 * config.price_per_minute)
    * getClassMultiplier request.vehicleClass * demandCoeff

/-- Spec-side (from the C8 sentence): recombine the returned breakdown
fields — the base, distance and time amounts scaled by `classMultiplier`,
times `demandCoeff`.  (The response carries no distance-step or
time-of-day multiplier fields to include.) -/
def recombineBreakdown (b : PriceBreakdown) : ℚ :=
  (b.base + (b.distance : ℚ) + (b.time : ℚ)) * b.classMultiplier * b.demandCoeff

/-- Spec-side (from the C7 sentence): the two configured peak windows
(morning commute 7-9 and evening commute 17-19), both ends inclusive. -/
def inPeakWindow (hour : ℕ) : Prop :=
  (7 ≤ hour ∧ hour ≤ 9) ∨ (17 ≤ hour ∧ hour ≤ 19)

instance (hour : ℕ) : Decidable (inPeakWindow hour) := by
  unfold inPeakWindow
  infer_instance

/-- Spec-side (from the C7 sentence): the night window that wraps across
midnight (22-6). -/
def inNightWindow (hour : ℕ) : Prop :=
  22 ≤ hour ∨ hour ≤ 6

instance (hour : ℕ) : Decidable (inNightWindow hour) := by
  unfold inNightWindow
  infer_instance

/-- `calculatePrice` on the non-throwing path: the response data spelled
out.  Pure unfolding of the definition. -/
lemma calculatePrice_data (config : Config) (request : PriceRequest)
    (demandCoeff : ℚ) (exMsg traceId : String) :
    (PricingEngine.calculatePrice config request demandCoeff false exMsg traceId).data =
      some { price := roundHalfAwayFromZero
               ((config.base_price + request.distanceM / 1000 * config.price_per_km
                   + request.etaSec / 60 * config.price_per_minute)
                 * getClassMultiplier request.vehicleClass * demandCoeff)
             currency := "RUB"
             breakdown :=
               { base := config.base_price
                 distance := roundHalfAwayFromZero
                   (request.distanceM / 1000 * config.price_per_km)
                 time := roundHalfAwayFromZero
                   (request.etaSec / 60 * config.price_per_minute)
                 classMultiplier := getClassMultiplier request.vehicleClass
                 demandCoeff := (roundHalfAwayFromZero (demandCoeff * 100) : ℚ) / 100 } } :=
  rfl

/-- Every entry of the class-multiplier table is at least `1`. -/
lemma one_le_getClassMultiplier (s : String) : 1 ≤ getClassMultiplier s := by
  unfold getClassMultiplier
  split_ifs <;> norm_num

/-- Rounding half away from zero keeps non-negative values non-negative. -/
lemma roundHalfAwayFromZero_nonneg {q : ℚ} (hq : 0 ≤ q) :
    0 ≤ roundHalfAwayFromZero q := by
  unfold roundHalfAwayFromZero
  rw [if_pos hq]
  refine Int.le_floor.mpr ?_
  push_cast
  linarith

/-- Rounding half away from zero moves a non-negative value by at most
half a unit. -/
lemma abs_sub_roundHalfAwayFromZero {q : ℚ} (hq : 0 ≤ q) :
    |q - (roundHalfAwayFromZero q : ℚ)| ≤ 1/2 := by
  unfold roundHalfAwayFromZero
  rw [if_pos hq]
  have h1 : (⌊q + 1/2⌋ : ℚ) ≤ q + 1/2 := Int.floor_le _
  have h2 : q + 1/2 - 1 < (⌊q + 1/2⌋ : ℚ) := Int.sub_one_lt_floor _
  rw [abs_le]
  constructor <;> linarith

/-- The replacement loop of `generateUUID` preserves length. -/
lemma replaceUuidChars_length (draw : ℕ → ℕ) :
    ∀ (i : ℕ) (l : List Char), (replaceUuidChars draw i l).length = l.length := by
  intro i l
  induction l generalizing i with
  | nil => rfl
  | cons c cs ih => simp [replaceUuidChars, ih]

/-- A generated UUID is never the empty string (the template has 36
characters and replacement preserves length). -/
lemma generateUUID_ne_empty (draw : ℕ → ℕ) : generateUUID draw ≠ "" := by
  intro h
  have h2 : replaceUuidChars draw 0 uuidTemplate.data = ("" : String).data :=
    congrArg String.data h
  have h3 := congrArg List.length h2
  rw [replaceUuidChars_length] at h3
  exact absurd h3 (by decide)

/-- The resolved trace id is never empty. -/
lemma resolveTraceId_ne_empty (headerValue : String) (draw : ℕ → ℕ) :
    resolveTraceId headerValue draw ≠ "" := by
  unfold resolveTraceId
  split
  · exact generateUUID_ne_empty draw
  · assumption

/-- Claim C1, counterexample: for the example request given in the specification,
`{distanceM := 5000, etaSec := 600, class := "comfort"}` under the default
configuration with the demand coefficient fixed at `1.0`, the code returns
price `267` (the hard-coded comfort multiplier is `1.3` and no distance or
time multiplier exists on this path), not the claimed `205`. -/
theorem c1_counterexample :
    ((PricingEngine.calculatePrice defaultConfig
        { distanceM := 5000, etaSec := 600, vehicleClass := "comfort" } 1 false "" "t").data.map
      PriceData.price) = some 267 ∧ (267 : ℤ) ≠ 205 := by
  constructor
  · rw [calculatePrice_data]
    simp +decide only [Option.map_some', getClassMultiplier, defaultConfig,
      roundHalfAwayFromZero]
    norm_num
  · decide

/-- Claim C1 (amended): for every request on the non-throwing path, the
returned price is `round(base_amount × class_mult × demand_mult)` with
`base_amount = base_price + distanceM/1000·price_per_km +
etaSec/60·price_per_minute` — i.e. the claimed formula with the distance
and time multipliers fixed at `1.0` and the class multiplier taken from
the hard-coded table of `main.cpp` (comfort `1.3`). -/
theorem c1_amended_price_formula (config : Config) (request : PriceRequest)
    (demandCoeff : ℚ) (exMsg traceId : String) :
    ((PricingEngine.calculatePrice config request demandCoeff false exMsg traceId).data.map
        PriceData.price)
      = some (specFormulaPrice config request
          (getClassMultiplier request.vehicleClass) 1 1 demandCoeff) := by
  rw [calculatePrice_data]
  simp only [Option.map_some']
  unfold specFormulaPrice
  congr 1
  ring_nf

/-- Claim C4: for every validated request under non-negative configured
rates and a non-negative demand coefficient, the returned price is the
half-away-from-zero rounding of the real-valued fare, is non-negative,
and the computation is deterministic once the demand coefficient is
fixed. -/
theorem c4_price_nonneg_deterministic (config : Config) (request : PriceRequest)
    (demandCoeff : ℚ) (exMsg traceId : String)
    (hb : 0 ≤ config.base_price) (hk : 0 ≤ config.price_per_km)
    (hm : 0 ≤ config.price_per_minute) (hd : 0 < request.distanceM)
    (he : 0 < request.etaSec) (hdem : 0 ≤ demandCoeff) :
    ((PricingEngine.calculatePrice config request demandCoeff false exMsg traceId).data.map
        PriceData.price)
      = some (roundHalfAwayFromZero (realValuedFare config request demandCoeff)) ∧
    0 ≤ roundHalfAwayFromZero (realValuedFare config request demandCoeff) ∧
    PricingEngine.calculatePrice config request demandCoeff false exMsg traceId =
      PricingEngine.calculatePrice config request demandCoeff false exMsg traceId := by
  refine ⟨by rw [calculatePrice_data]; rfl, ?_, rfl⟩
  apply roundHalfAwayFromZero_nonneg
  unfold realValuedFare
  have hc : (0:ℚ) ≤ getClassMultiplier request.vehicleClass :=
    le_trans (by norm_num) (one_le_getClassMultiplier request.vehicleClass)
  have hbase : (0:ℚ) ≤ config.base_price + request.distanceM / 1000 * config.price_per_km
      + request.etaSec / 60 * config.price_per_minute := by
    have h1 : (0:ℚ) ≤ request.distanceM / 1000 * config.price_per_km :=
      mul_nonneg (by positivity) hk
    have h2 : (0:ℚ) ≤ request.etaSec / 60 * config.price_per_minute :=
      mul_nonneg (by positivity) hm
    linarith
  exact mul_nonneg (mul_nonneg hbase hc) hdem

/-- Claim C4 witness: the default configuration and the example request at
demand coefficient `1`. -/
theorem c4_witness :
    ((PricingEngine.calculatePrice defaultConfig
        { distanceM := 5000, etaSec := 600, vehicleClass := "comfort" } 1 false "" "t").data.map
        PriceData.price)
      = some (roundHalfAwayFromZero (realValuedFare defaultConfig
          { distanceM := 5000, etaSec := 600, vehicleClass := "comfort" } 1)) ∧
    0 ≤ roundHalfAwayFromZero (realValuedFare defaultConfig
        { distanceM := 5000, etaSec := 600, vehicleClass := "comfort" } 1) ∧
    PricingEngine.calculatePrice defaultConfig
        { distanceM := 5000, etaSec := 600, vehicleClass := "comfort" } 1 false "" "t" =
      PricingEngine.calculatePrice defaultConfig
        { distanceM := 5000, etaSec := 600, vehicleClass := "comfort" } 1 false "" "t" :=
  c4_price_nonneg_deterministic defaultConfig
    { distanceM := 5000, etaSec := 600, vehicleClass := "comfort" } 1 "" "t"
    (by decide) (by decide) (by decide) (by decide) (by decide) (by decide)

/-- Claim C5: the distance multiplier of `magadrive::PricingEngine` is a
step function — `1.0` at or below the long-distance threshold (10000 m),
the configured discount factor strictly above it, and that factor is less
than `1.0`. -/
theorem c5_distance_step (d : ℚ) :
    (d ≤ magadrive.engineInit.long_distance_threshold_m →
      magadrive.engineInit.getDistanceMultiplier d = 1) ∧
    (magadrive.engineInit.long_distance_threshold_m < d →
      magadrive.engineInit.getDistanceMultiplier d =
        magadrive.engineInit.long_distance_multiplier) ∧
    magadrive.engineInit.long_distance_multiplier < 1 := by
  unfold magadrive.PricingEngine.getDistanceMultiplier
  refine ⟨fun h => ?_, fun h => ?_, by norm_num [magadrive.engineInit]⟩
  · rw [if_pos h]
    rfl
  · rw [if_neg (not_le.mpr h)]

/-- Claim C5 witness: a trip at exactly the threshold gets multiplier `1`,
one metre above gets the discount factor. -/
theorem c5_witness :
    magadrive.engineInit.getDistanceMultiplier 10000 = 1 ∧
    magadrive.engineInit.getDistanceMultiplier 10001 =
      magadrive.engineInit.long_distance_multiplier :=
  ⟨(c5_distance_step 10000).1 (by decide), (c5_distance_step 10001).2.1 (by decide)⟩

/-- Claim C6: the class-multiplier lookup of `main.cpp` is total — any
string outside the hard-coded table yields multiplier `1.0` — and a
request carrying such a class is not rejected: the handler answers with
status 200 and no error object. -/
theorem c6_class_lookup_total (s : String)
    (hs : s ∉ ["economy", "comfort", "business", "premium"])
    (config : Config) (headerValue : String) (draw : ℕ → ℕ) (d e : ℚ)
    (hd : 0 < d) (he : 0 < e) (demandCoeff : ℚ) (exMsg : String) :
    getClassMultiplier s = 1 ∧
    (priceHandler config headerValue draw
        (.ok { distanceM := some d, etaSec := some e, classField := some s })
        demandCoeff false exMsg).status = 200 ∧
    (priceHandler config headerValue draw
        (.ok { distanceM := some d, etaSec := some e, classField := some s })
        demandCoeff false exMsg).body.error = none := by
  simp only [List.mem_cons, List.not_mem_nil, or_false, not_or] at hs
  obtain ⟨h1, h2, h3, h4⟩ := hs
  refine ⟨?_, ?_, ?_⟩
  · unfold getClassMultiplier
    rw [if_neg h1, if_neg h2, if_neg h3, if_neg h4]
  · simp only [priceHandler, PriceRequest.fromJson, Option.getD]
    rw [if_neg]
    intro hcase
    rcases hcase with hcase | hcase
    · exact absurd hcase (not_le.mpr hd)
    · exact absurd hcase (not_le.mpr he)
  · simp only [priceHandler, PriceRequest.fromJson, Option.getD]
    rw [if_neg]
    · rfl
    · intro hcase
      rcases hcase with hcase | hcase
      · exact absurd hcase (not_le.mpr hd)
      · exact absurd hcase (not_le.mpr he)

/-- Claim C6 witness: the unrecognized class `"spaceship"` on a valid
request. -/
theorem c6_witness :
    getClassMultiplier "spaceship" = 1 ∧
    (priceHandler defaultConfig "t" (fun _ => 0)
        (.ok { distanceM := some 1, etaSec := some 1, classField := some "spaceship" })
        1 false "").status = 200 ∧
    (priceHandler defaultConfig "t" (fun _ => 0)
        (.ok { distanceM := some 1, etaSec := some 1, classField := some "spaceship" })
        1 false "").body.error = none :=
  c6_class_lookup_total "spaceship" (by decide) defaultConfig "t" (fun _ => 0) 1 1
    (by decide) (by decide) 1 ""

/-- Claim C7: for every hour of the day, the time-of-day multiplier is the
peak multiplier on the peak windows (ends inclusive), otherwise the night
multiplier on the wrapping night window, otherwise `1.0`; the peak test is
applied first, so an hour in both windows would get the peak multiplier. -/
theorem c7_time_of_day (hour : ℕ) (_hhour : hour < 24) :
    (inPeakWindow hour →
      magadrive.engineInit.getTimeOfDayMultiplier hour =
        magadrive.engineInit.peak_hour_multiplier) ∧
    (¬inPeakWindow hour → inNightWindow hour →
      magadrive.engineInit.getTimeOfDayMultiplier hour =
        magadrive.engineInit.night_hour_multiplier) ∧
    (¬inPeakWindow hour → ¬inNightWindow hour →
      magadrive.engineInit.getTimeOfDayMultiplier hour = 1) := by
  unfold magadrive.PricingEngine.getTimeOfDayMultiplier inPeakWindow inNightWindow
  refine ⟨fun hp => ?_, fun hp hn => ?_, fun hp hn => ?_⟩
  · rw [if_pos hp]
  · rw [if_neg hp, if_pos hn]
  · rw [if_neg hp, if_neg hn]

/-- Claim C7 witness: hour 8 is peak, hour 23 is night, hour 12 is
neutral. -/
theorem c7_witness :
    magadrive.engineInit.getTimeOfDayMultiplier 8 =
      magadrive.engineInit.peak_hour_multiplier ∧
    magadrive.engineInit.getTimeOfDayMultiplier 23 =
      magadrive.engineInit.night_hour_multiplier ∧
    magadrive.engineInit.getTimeOfDayMultiplier 12 = 1 :=
  ⟨(c7_time_of_day 8 (by decide)).1 (by decide),
   (c7_time_of_day 23 (by decide)).2.1 (by decide) (by decide),
   (c7_time_of_day 12 (by decide)).2.2 (by decide) (by decide)⟩

/-- Claim C10: only `distanceM` and `etaSec` are required — a body without
the `class` field parses with the default class `"economy"` (multiplier
`1.0`) and, when the numeric fields are positive, the handler returns a
computed price with status 200 and no error. -/
theorem c10_class_optional (config : Config) (headerValue : String) (draw : ℕ → ℕ)
    (d e : ℚ) (hd : 0 < d) (he : 0 < e) (demandCoeff : ℚ) (exMsg : String) :
    PriceRequest.fromJson { distanceM := some d, etaSec := some e, classField := none }
      = some { distanceM := d, etaSec := e, vehicleClass := "economy" } ∧
    getClassMultiplier "economy" = 1 ∧
    (priceHandler config headerValue draw
        (.ok { distanceM := some d, etaSec := some e, classField := none })
        demandCoeff false exMsg).status = 200 ∧
    (priceHandler config headerValue draw
        (.ok { distanceM := some d, etaSec := some e, classField := none })
        demandCoeff false exMsg).body.error = none ∧
    ((priceHandler config headerValue draw
        (.ok { distanceM := some d, etaSec := some e, classField := none })
        demandCoeff false exMsg).body.data).isSome = true := by
  have hcond : ¬(({ distanceM := d, etaSec := e, vehicleClass := "economy" } :
      PriceRequest).distanceM ≤ 0 ∨
      ({ distanceM := d, etaSec := e, vehicleClass := "economy" } : PriceRequest).etaSec ≤ 0) := by
    intro hcase
    rcases hcase with hcase | hcase
    · exact absurd hcase (not_le.mpr hd)
    · exact absurd hcase (not_le.mpr he)
  refine ⟨rfl, ?_, ?_, ?_, ?_⟩
  · unfold getClassMultiplier
    rw [if_pos rfl]
  · simp only [priceHandler, PriceRequest.fromJson, Option.getD]
    rw [if_neg hcond]
  · simp only [priceHandler, PriceRequest.fromJson, Option.getD]
    rw [if_neg hcond]
    rfl
  · simp only [priceHandler, PriceRequest.fromJson, Option.getD]
    rw [if_neg hcond]
    rfl

/-- Unfolding of the handler on the `json::parse_error` path. -/
lemma priceHandler_parseFailure_eq (config : Config) (headerValue : String)
    (draw : ℕ → ℕ) (demandCoeff : ℚ) (calcThrows : Bool) (exMsg : String) :
    priceHandler config headerValue draw .parseFailure demandCoeff calcThrows exMsg =
      { status := 400
        xRequestId := none
        body := { data := none
                  error := some { code := .JSON_PARSE_ERROR, message := "Invalid JSON format" }
                  traceId := resolveTraceId headerValue draw } } :=
  rfl

/-- Unfolding of the handler on the generic-exception path. -/
lemma priceHandler_otherFailure_eq (config : Config) (headerValue : String)
    (draw : ℕ → ℕ) (msg : String) (demandCoeff : ℚ) (calcThrows : Bool)
    (exMsg : String) :
    priceHandler config headerValue draw (.otherFailure msg) demandCoeff calcThrows exMsg =
      { status := 500
        xRequestId := none
        body := { data := none
                  error := some { code := .INTERNAL_ERROR, message := msg }
                  traceId := resolveTraceId headerValue draw } } :=
  rfl

/-- Unfolding of the handler when `PriceRequest::fromJson` fails. -/
lemma priceHandler_invalidRequest_eq (config : Config) (headerValue : String)
    (draw : ℕ → ℕ) (j : PriceJson) (demandCoeff : ℚ) (calcThrows : Bool)
    (exMsg : String) (hreq : PriceRequest.fromJson j = none) :
    priceHandler config headerValue draw (.ok j) demandCoeff calcThrows exMsg =
      { status := 400
        xRequestId := none
        body := { data := none
                  error := some { code := .INVALID_REQUEST, message := "Invalid request format" }
                  traceId := resolveTraceId headerValue draw } } := by
  simp only [priceHandler, hreq]

/-- Unfolding of the handler when `PriceRequest::fromJson` succeeds. -/
lemma priceHandler_ok_eq (config : Config) (headerValue : String)
    (draw : ℕ → ℕ) (j : PriceJson) (req : PriceRequest) (demandCoeff : ℚ)
    (calcThrows : Bool) (exMsg : String)
    (hreq : PriceRequest.fromJson j = some req) :
    priceHandler config headerValue draw (.ok j) demandCoeff calcThrows exMsg =
      if req.distanceM ≤ 0 ∨ req.etaSec ≤ 0 then
        { status := 400
          xRequestId := none
          body := { data := none
                    error := some { code := .INVALID_PARAMETERS,
                                    message := "Distance and ETA must be positive" }
                    traceId := resolveTraceId headerValue draw } }
      else
        { status := 200
          xRequestId := some (resolveTraceId headerValue draw)
          body := PricingEngine.calculatePrice config req demandCoeff calcThrows exMsg
            (resolveTraceId headerValue draw) } := by
  simp only [priceHandler, hreq]

/-- The throwing branch of `calculatePrice` spelled out. -/
lemma calculatePrice_throw_eq (config : Config) (request : PriceRequest)
    (demandCoeff : ℚ) (exMsg traceId : String) :
    PricingEngine.calculatePrice config request demandCoeff true exMsg traceId =
      { data := none
        error := some { code := .PRICE_CALCULATION_FAILED, message := exMsg }
        traceId := traceId } :=
  rfl

/-- The non-throwing branch of `calculatePrice` never reports an error. -/
lemma calculatePrice_error_none (config : Config) (request : PriceRequest)
    (demandCoeff : ℚ) (exMsg traceId : String) :
    (PricingEngine.calculatePrice config request demandCoeff false exMsg traceId).error =
      none :=
  rfl

/-- Claim C2: once the body has parsed into a request, a non-positive
`distanceM` or `etaSec` (zero included) yields HTTP 400 with
`INVALID_PARAMETERS` and a response independent of every engine
parameter (the fare engine is not consulted); positive values are never
rejected by this check — the handler answers 200 and any error object it
might carry is not `INVALID_PARAMETERS`. -/
theorem c2_invalid_parameters (config : Config) (headerValue : String)
    (draw : ℕ → ℕ) (j : PriceJson) (req : PriceRequest)
    (demandCoeff demandCoeff2 : ℚ) (calcThrows calcThrows2 : Bool)
    (exMsg exMsg2 : String)
    (hreq : PriceRequest.fromJson j = some req) :
    ((req.distanceM ≤ 0 ∨ req.etaSec ≤ 0) →
      priceHandler config headerValue draw (.ok j) demandCoeff calcThrows exMsg =
        { status := 400
          xRequestId := none
          body := { data := none
                    error := some { code := .INVALID_PARAMETERS,
                                    message := "Distance and ETA must be positive" }
                    traceId := resolveTraceId headerValue draw } } ∧
      priceHandler config headerValue draw (.ok j) demandCoeff calcThrows exMsg =
        priceHandler config headerValue draw (.ok j) demandCoeff2 calcThrows2 exMsg2) ∧
    (0 < req.distanceM → 0 < req.etaSec →
      (priceHandler config headerValue draw (.ok j) demandCoeff calcThrows exMsg).status = 200 ∧
      ∀ er, (priceHandler config headerValue draw (.ok j) demandCoeff calcThrows
          exMsg).body.error = some er → er.code ≠ ErrorCode.INVALID_PARAMETERS) := by
  rw [priceHandler_ok_eq config headerValue draw j req demandCoeff calcThrows exMsg hreq,
    priceHandler_ok_eq config headerValue draw j req demandCoeff2 calcThrows2 exMsg2 hreq]
  constructor
  · intro hcond
    rw [if_pos hcond, if_pos hcond]
    exact ⟨rfl, rfl⟩
  · intro hd he
    have hcond : ¬(req.distanceM ≤ 0 ∨ req.etaSec ≤ 0) := by
      intro hcase
      rcases hcase with hcase | hcase
      · exact absurd hcase (not_le.mpr hd)
      · exact absurd hcase (not_le.mpr he)
    rw [if_neg hcond]
    refine ⟨rfl, ?_⟩
    intro er her
    rcases calcThrows with _ | _
    · exact Option.noConfusion (show (none : Option ErrorObj) = some er from her)
    · have hc : ErrorObj.mk .PRICE_CALCULATION_FAILED exMsg = er :=
        Option.some.inj
          (show some (ErrorObj.mk .PRICE_CALCULATION_FAILED exMsg) = some er from her)
      rw [← hc]
      exact fun h => ErrorCode.noConfusion h

/-- Claim C2 witness: `distanceM = 0` is rejected with 400 and
`INVALID_PARAMETERS` independently of the engine parameters. -/
theorem c2_witness :
    priceHandler defaultConfig "t" (fun _ => 0)
        (.ok { distanceM := some 0, etaSec := some 600, classField := some "economy" })
        1 false "" =
      { status := 400
        xRequestId := none
        body := { data := none
                  error := some { code := .INVALID_PARAMETERS,
                                  message := "Distance and ETA must be positive" }
                  traceId := resolveTraceId "t" (fun _ => 0) } } ∧
    priceHandler defaultConfig "t" (fun _ => 0)
        (.ok { distanceM := some 0, etaSec := some 600, classField := some "economy" })
        1 false "" =
      priceHandler defaultConfig "t" (fun _ => 0)
        (.ok { distanceM := some 0, etaSec := some 600, classField := some "economy" })
        1 true "boom" :=
  (c2_invalid_parameters defaultConfig "t" (fun _ => 0)
      { distanceM := some 0, etaSec := some 600, classField := some "economy" }
      { distanceM := 0, etaSec := 600, vehicleClass := "economy" }
      1 1 false true "" "boom" rfl).1 (Or.inl (by decide))

/-- Claim C3, counterexample: when the `try` block of the engine throws, the
handler passes the `PRICE_CALCULATION_FAILED` envelope through without
assigning a status, so the response goes out with HTTP 200 — not the 500
the error-code table assigns. -/
theorem c3_counterexample :
    (priceHandler defaultConfig "t" (fun _ => 0)
        (.ok { distanceM := some 1000, etaSec := some 60, classField := some "economy" })
        1 true "boom").body.error =
      some { code := .PRICE_CALCULATION_FAILED, message := "boom" } ∧
    (priceHandler defaultConfig "t" (fun _ => 0)
        (.ok { distanceM := some 1000, etaSec := some 60, classField := some "economy" })
        1 true "boom").status = 200 ∧
    (200 : ℕ) ≠ 500 := by
  refine ⟨?_, ?_, by decide⟩ <;> decide

/-- Claim C3 (amended): the status the handler assigns to each error code —
`JSON_PARSE_ERROR`, `INVALID_REQUEST` and `INVALID_PARAMETERS` go out with
HTTP 400 and `INTERNAL_ERROR` with HTTP 500, but `PRICE_CALCULATION_FAILED`
goes out with HTTP 200, the engine envelope being forwarded without a
status assignment. -/
theorem c3_amended_status_mapping (config : Config) (headerValue : String)
    (draw : ℕ → ℕ) (parse : ParseOutcome) (demandCoeff : ℚ) (calcThrows : Bool)
    (exMsg : String) :
    ∀ er, (priceHandler config headerValue draw parse demandCoeff calcThrows
        exMsg).body.error = some er →
      ((er.code = .JSON_PARSE_ERROR →
          (priceHandler config headerValue draw parse demandCoeff calcThrows exMsg).status = 400) ∧
       (er.code = .INVALID_REQUEST →
          (priceHandler config headerValue draw parse demandCoeff calcThrows exMsg).status = 400) ∧
       (er.code = .INVALID_PARAMETERS →
          (priceHandler config headerValue draw parse demandCoeff calcThrows exMsg).status = 400) ∧
       (er.code = .INTERNAL_ERROR →
          (priceHandler config headerValue draw parse demandCoeff calcThrows exMsg).status = 500) ∧
       (er.code = .PRICE_CALCULATION_FAILED →
          (priceHandler config headerValue draw parse demandCoeff calcThrows exMsg).status = 200)) := by
  intro er her
  rcases parse with j | _ | msg
  · rcases hfj : PriceRequest.fromJson j with _ | req
    · rw [priceHandler_invalidRequest_eq config headerValue draw j demandCoeff
        calcThrows exMsg hfj] at her ⊢
      have hc : ErrorObj.mk .INVALID_REQUEST "Invalid request format" = er :=
        Option.some.inj her
      rw [← hc]
      refine ⟨fun h => rfl, fun h => rfl, fun h => rfl,
        fun h => ErrorCode.noConfusion h, fun h => ErrorCode.noConfusion h⟩
    · rw [priceHandler_ok_eq config headerValue draw j req demandCoeff
        calcThrows exMsg hfj] at her ⊢
      by_cases hval : req.distanceM ≤ 0 ∨ req.etaSec ≤ 0
      · rw [if_pos hval] at her ⊢
        have hc : ErrorObj.mk .INVALID_PARAMETERS "Distance and ETA must be positive" = er :=
          Option.some.inj her
        rw [← hc]
        refine ⟨fun h => rfl, fun h => rfl, fun h => rfl,
          fun h => ErrorCode.noConfusion h, fun h => ErrorCode.noConfusion h⟩
      · rw [if_neg hval] at her ⊢
        rcases calcThrows with _ | _
        · exact Option.noConfusion (show (none : Option ErrorObj) = some er from her)
        · have hc : ErrorObj.mk .PRICE_CALCULATION_FAILED exMsg = er :=
            Option.some.inj
              (show some (ErrorObj.mk .PRICE_CALCULATION_FAILED exMsg) = some er from her)
          rw [← hc]
          refine ⟨fun h => ErrorCode.noConfusion h, fun h => ErrorCode.noConfusion h,
            fun h => ErrorCode.noConfusion h, fun h => ErrorCode.noConfusion h, fun h => rfl⟩
  · rw [priceHandler_parseFailure_eq config headerValue draw demandCoeff
      calcThrows exMsg] at her ⊢
    have hc : ErrorObj.mk .JSON_PARSE_ERROR "Invalid JSON format" = er :=
      Option.some.inj her
    rw [← hc]
    refine ⟨fun h => rfl, fun h => ErrorCode.noConfusion h, fun h => ErrorCode.noConfusion h,
      fun h => ErrorCode.noConfusion h, fun h => ErrorCode.noConfusion h⟩
  · rw [priceHandler_otherFailure_eq config headerValue draw msg demandCoeff
      calcThrows exMsg] at her ⊢
    have hc : ErrorObj.mk .INTERNAL_ERROR msg = er :=
      Option.some.inj her
    rw [← hc]
    refine ⟨fun h => ErrorCode.noConfusion h, fun h => ErrorCode.noConfusion h,
      fun h => ErrorCode.noConfusion h, fun h => rfl, fun h => ErrorCode.noConfusion h⟩

/-- Claim C3 witness: a malformed body gets `JSON_PARSE_ERROR` with
HTTP 400. -/
theorem c3_witness :
    (priceHandler defaultConfig "t" (fun _ => 0) .parseFailure 1 false "").status = 400 :=
  (c3_amended_status_mapping defaultConfig "t" (fun _ => 0) .parseFailure 1 false ""
    { code := .JSON_PARSE_ERROR, message := "Invalid JSON format" } rfl).1 rfl

/-- Claim C9, counterexample: on the `JSON_PARSE_ERROR` path the handler
never calls `res.set_header("X-Request-Id", ...)`, so an error response
carries no `X-Request-Id` header even though its envelope `traceId` echoes
the request header. -/
theorem c9_counterexample :
    (priceHandler defaultConfig "req-1" (fun _ => 0) .parseFailure 1 false "").xRequestId
      = none ∧
    (priceHandler defaultConfig "req-1" (fun _ => 0) .parseFailure 1 false "").status = 400 ∧
    (priceHandler defaultConfig "req-1" (fun _ => 0) .parseFailure 1 false "").body.traceId
      = "req-1" := by
  refine ⟨rfl, rfl, by decide⟩

/-- Claim C9 (amended): the envelope of every response carries the resolved,
non-empty trace id (the `X-Request-Id` request header when non-empty,
otherwise a generated UUID), but the `X-Request-Id` response header is set
exactly on the path that reaches the engine (status 200), not on the
400/500 error paths. -/
theorem c9_amended_trace_id (config : Config) (headerValue : String)
    (draw : ℕ → ℕ) (parse : ParseOutcome) (demandCoeff : ℚ) (calcThrows : Bool)
    (exMsg : String) :
    (priceHandler config headerValue draw parse demandCoeff calcThrows exMsg).body.traceId
      = resolveTraceId headerValue draw ∧
    (priceHandler config headerValue draw parse demandCoeff calcThrows exMsg).body.traceId
      ≠ "" ∧
    ((priceHandler config headerValue draw parse demandCoeff calcThrows exMsg).status = 200 →
      (priceHandler config headerValue draw parse demandCoeff calcThrows exMsg).xRequestId
        = some (resolveTraceId headerValue draw)) ∧
    ((priceHandler config headerValue draw parse demandCoeff calcThrows exMsg).status ≠ 200 →
      (priceHandler config headerValue draw parse demandCoeff calcThrows exMsg).xRequestId
        = none) := by
  rcases parse with j | _ | msg
  · rcases hfj : PriceRequest.fromJson j with _ | req
    · rw [priceHandler_invalidRequest_eq config headerValue draw j demandCoeff
        calcThrows exMsg hfj]
      exact ⟨rfl, resolveTraceId_ne_empty headerValue draw,
        fun h => absurd (show (400:ℕ) = 200 from h) (by decide), fun _ => rfl⟩
    · rw [priceHandler_ok_eq config headerValue draw j req demandCoeff
        calcThrows exMsg hfj]
      by_cases hval : req.distanceM ≤ 0 ∨ req.etaSec ≤ 0
      · rw [if_pos hval]
        exact ⟨rfl, resolveTraceId_ne_empty headerValue draw,
          fun h => absurd (show (400:ℕ) = 200 from h) (by decide), fun _ => rfl⟩
      · rw [if_neg hval]
        refine ⟨?_, ?_, fun _ => rfl, fun h => absurd rfl h⟩
        · rcases calcThrows with _ | _ <;> rfl
        · rcases calcThrows with _ | _ <;>
            exact resolveTraceId_ne_empty headerValue draw
  · rw [priceHandler_parseFailure_eq config headerValue draw demandCoeff
      calcThrows exMsg]
    exact ⟨rfl, resolveTraceId_ne_empty headerValue draw,
      fun h => absurd (show (400:ℕ) = 200 from h) (by decide), fun _ => rfl⟩
  · rw [priceHandler_otherFailure_eq config headerValue draw msg demandCoeff
      calcThrows exMsg]
    exact ⟨rfl, resolveTraceId_ne_empty headerValue draw,
      fun h => absurd (show (500:ℕ) = 200 from h) (by decide), fun _ => rfl⟩

/-- Claim C9 witness: a supplied `X-Request-Id` header is echoed in the
envelope of a successful response and set as the response header. -/
theorem c9_witness :
    (priceHandler defaultConfig "req-7" (fun _ => 0)
        (.ok { distanceM := some 1, etaSec := some 1, classField := some "economy" })
        1 false "").body.traceId = resolveTraceId "req-7" (fun _ => 0) ∧
    (priceHandler defaultConfig "req-7" (fun _ => 0)
        (.ok { distanceM := some 1, etaSec := some 1, classField := some "economy" })
        1 false "").body.traceId ≠ "" ∧
    (priceHandler defaultConfig "req-7" (fun _ => 0)
        (.ok { distanceM := some 1, etaSec := some 1, classField := some "economy" })
        1 false "").xRequestId = some (resolveTraceId "req-7" (fun _ => 0)) := by
  have h := c9_amended_trace_id defaultConfig "req-7" (fun _ => 0)
    (.ok { distanceM := some 1, etaSec := some 1, classField := some "economy" }) 1 false ""
  exact ⟨h.1, h.2.1, h.2.2.1 (by decide)⟩

/-- Claim C10 witness: a body with `distanceM = 1`, `etaSec = 1` and no
`class` field. -/
theorem c10_witness :
    PriceRequest.fromJson { distanceM := some 1, etaSec := some 1, classField := none }
      = some { distanceM := 1, etaSec := 1, vehicleClass := "economy" } ∧
    getClassMultiplier "economy" = 1 ∧
    (priceHandler defaultConfig "t" (fun _ => 0)
        (.ok { distanceM := some 1, etaSec := some 1, classField := none })
        1 false "").status = 200 ∧
    (priceHandler defaultConfig "t" (fun _ => 0)
        (.ok { distanceM := some 1, etaSec := some 1, classField := none })
        1 false "").body.error = none ∧
    ((priceHandler defaultConfig "t" (fun _ => 0)
        (.ok { distanceM := some 1, etaSec := some 1, classField := none })
        1 false "").body.data).isSome = true :=
  c10_class_optional defaultConfig "t" (fun _ => 0) 1 1 (by decide) (by decide) 1 ""

/-- The distance a rounded component and a two-decimal-rounded demand
coefficient can move the recombined total: at most half a unit from the
final rounding, one unit scaled by `c·dem` from the two rounded amounts,
and a half-percent of the recombined base scaled by `c`. -/
lemma recombine_bound (base D T c dem : ℚ)
    (hbase : 0 ≤ base) (hD : 0 ≤ D) (hT : 0 ≤ T) (hc : 0 ≤ c) (hdem : 0 ≤ dem) :
    |((roundHalfAwayFromZero ((base + D + T) * c * dem)) : ℚ) -
        (base + (roundHalfAwayFromZero D : ℚ) + (roundHalfAwayFromZero T : ℚ)) * c *
          ((roundHalfAwayFromZero (dem * 100) : ℚ) / 100)| ≤
      1/2 + c * dem +
        (base + (roundHalfAwayFromZero D : ℚ) + (roundHalfAwayFromZero T : ℚ)) * c / 200 := by
  set P : ℚ := (roundHalfAwayFromZero ((base + D + T) * c * dem) : ℚ) with hP
  set Dr : ℚ := (roundHalfAwayFromZero D : ℚ) with hDr
  set Tr : ℚ := (roundHalfAwayFromZero T : ℚ) with hTr
  set r : ℚ := (roundHalfAwayFromZero (dem * 100) : ℚ) with hr
  have hcd : (0:ℚ) ≤ c * dem := mul_nonneg hc hdem
  have hBcd : (0:ℚ) ≤ (base + D + T) * c * dem :=
    mul_nonneg (mul_nonneg (by linarith) hc) hdem
  have hDrpos : (0:ℚ) ≤ Dr := by
    rw [hDr]
    exact_mod_cast roundHalfAwayFromZero_nonneg hD
  have hTrpos : (0:ℚ) ≤ Tr := by
    rw [hTr]
    exact_mod_cast roundHalfAwayFromZero_nonneg hT
  have hS : (0:ℚ) ≤ base + Dr + Tr := by linarith
  have h1 : |(base + D + T) * c * dem - P| ≤ 1/2 :=
    abs_sub_roundHalfAwayFromZero hBcd
  have h2 : |D - Dr| ≤ 1/2 := abs_sub_roundHalfAwayFromZero hD
  have h3 : |T - Tr| ≤ 1/2 := abs_sub_roundHalfAwayFromZero hT
  have h4a : |dem * 100 - r| ≤ 1/2 :=
    abs_sub_roundHalfAwayFromZero (mul_nonneg hdem (by norm_num))
  have h4 : |dem - r / 100| ≤ 1/200 := by
    have hrw : dem - r / 100 = (dem * 100 - r) / 100 := by ring
    rw [hrw, abs_div, show |(100:ℚ)| = 100 from by norm_num]
    linarith
  have key : P - (base + Dr + Tr) * c * (r / 100) =
      -((base + D + T) * c * dem - P) +
        (c * dem * ((D - Dr) + (T - Tr)) + (base + Dr + Tr) * c * (dem - r / 100)) := by
    ring
  have e2 : |c * dem * ((D - Dr) + (T - Tr))| ≤ c * dem := by
    rw [abs_mul, abs_of_nonneg hcd]
    have hX : |(D - Dr) + (T - Tr)| ≤ 1 := (abs_add _ _).trans (by linarith)
    calc c * dem * |(D - Dr) + (T - Tr)| ≤ c * dem * 1 :=
          mul_le_mul_of_nonneg_left hX hcd
      _ = c * dem := mul_one _
  have e3 : |(base + Dr + Tr) * c * (dem - r / 100)| ≤ (base + Dr + Tr) * c / 200 := by
    rw [abs_mul, abs_of_nonneg (mul_nonneg hS hc)]
    calc (base + Dr + Tr) * c * |dem - r / 100| ≤ (base + Dr + Tr) * c * (1/200) :=
          mul_le_mul_of_nonneg_left h4 (mul_nonneg hS hc)
      _ = (base + Dr + Tr) * c / 200 := by ring
  have habs : |P - (base + Dr + Tr) * c * (r / 100)| ≤
      |(base + D + T) * c * dem - P| +
        (|c * dem * ((D - Dr) + (T - Tr))| + |(base + Dr + Tr) * c * (dem - r / 100)|) := by
    rw [key]
    refine (abs_add _ _).trans ?_
    rw [abs_neg]
    exact add_le_add_left (abs_add _ _) _
  linarith

/-- Claim C8, counterexample: for the request `{distanceM := 5030, etaSec
:= 609, class := "premium"}` with demand `1.0`, the price is `515` but
recombining the returned breakdown gives `(100+75+30)×2.5×1 = 512.5` —
off by `2.5`, beyond the half-unit rounding tolerance, because the
`distance` and `time` entries are themselves rounded before being
returned. -/
theorem c8_counterexample :
    (PricingEngine.calculatePrice defaultConfig
        { distanceM := 5030, etaSec := 609, vehicleClass := "premium" } 1 false "" "t").data =
      some { price := 515, currency := "RUB",
             breakdown := { base := 100, distance := 75, time := 30,
                            classMultiplier := 5/2, demandCoeff := 1 } } ∧
    1/2 < |((515:ℤ):ℚ) - recombineBreakdown
        { base := 100, distance := 75, time := 30,
          classMultiplier := 5/2, demandCoeff := 1 }| := by
  constructor
  · simp +decide only [PricingEngine.calculatePrice, defaultConfig, getClassMultiplier,
      roundHalfAwayFromZero]
    norm_num
  · have h : ((515:ℤ):ℚ) - recombineBreakdown
        { base := 100, distance := 75, time := 30,
          classMultiplier := 5/2, demandCoeff := 1 } = 5/2 := by
      norm_num [recombineBreakdown]
    rw [h, abs_of_nonneg (by norm_num : (0:ℚ) ≤ 5/2)]
    norm_num

/-- Claim C8 (amended): recombining the returned breakdown — base,
distance and time amounts summed, scaled by `classMultiplier` and
`demandCoeff` — reproduces the returned price not within the half-unit
rounding tolerance but within `1/2 + classMultiplier·demand +
(base+distance+time)·classMultiplier/200`: the `distance` and `time`
entries are rounded to whole units and `demandCoeff` to two decimals
before being returned, and the response carries no distance-step or
time-of-day multiplier fields. -/
theorem c8_amended_roundtrip_bound (config : Config) (request : PriceRequest)
    (demandCoeff : ℚ) (exMsg traceId : String)
    (hb : 0 ≤ config.base_price) (hk : 0 ≤ config.price_per_km)
    (hm : 0 ≤ config.price_per_minute) (hd : 0 < request.distanceM)
    (he : 0 < request.etaSec) (hdem : 0 ≤ demandCoeff) :
    ((PricingEngine.calculatePrice config request demandCoeff false exMsg
        traceId).data.elim False fun pd =>
      |(pd.price : ℚ) - recombineBreakdown pd.breakdown| ≤
        1/2 + pd.breakdown.classMultiplier * demandCoeff +
          (pd.breakdown.base + (pd.breakdown.distance : ℚ) + (pd.breakdown.time : ℚ))
            * pd.breakdown.classMultiplier / 200) := by
  rw [calculatePrice_data]
  have hD : (0:ℚ) ≤ request.distanceM / 1000 * config.price_per_km :=
    mul_nonneg (by positivity) hk
  have hT : (0:ℚ) ≤ request.etaSec / 60 * config.price_per_minute :=
    mul_nonneg (by positivity) hm
  have hc : (0:ℚ) ≤ getClassMultiplier request.vehicleClass :=
    le_trans (by norm_num) (one_le_getClassMultiplier request.vehicleClass)
  exact recombine_bound config.base_price
    (request.distanceM / 1000 * config.price_per_km)
    (request.etaSec / 60 * config.price_per_minute)
    (getClassMultiplier request.vehicleClass) demandCoeff hb hD hT hc hdem

/-- Claim C8 witness: the default configuration on the economy example at
demand `1`. -/
theorem c8_witness :
    ((PricingEngine.calculatePrice defaultConfig
        { distanceM := 5000, etaSec := 600, vehicleClass := "economy" } 1 false ""
        "t").data.elim False fun pd =>
      |(pd.price : ℚ) - recombineBreakdown pd.breakdown| ≤
        1/2 + pd.breakdown.classMultiplier * 1 +
          (pd.breakdown.base + (pd.breakdown.distance : ℚ) + (pd.breakdown.time : ℚ))
            * pd.breakdown.classMultiplier / 200) :=
  c8_amended_roundtrip_bound defaultConfig
    { distanceM := 5000, etaSec := 600, vehicleClass := "economy" } 1 "" "t"
    (by decide) (by decide) (by decide) (by decide) (by decide) (by decide)
